import Mathlib

/-!
Verification development for the bulk-import REST client
(`pymilvus/bulk_writer/bulk_import.py`).

The client performs three stateless operations against a remote import-job
control plane: `bulk_insert` (submit an import job via HTTP POST),
`get_job_progress` and `list_jobs` (both HTTP GET).  The HTTP transport is
modelled as a function from the request the client builds (method, url,
headers, params, timeout) to an outcome: either a response (status code plus
the JSON-parse of its body) or a transport exception rendered as text.
Python exceptions are modelled by an inductive `PyExc`; each client function
becomes a Lean function into `Except PyExc`.
-/

namespace BulkImport

/-- Parsed JSON values, the result of decoding a response body. -/
inductive Json where
  | null
  | bool (b : Bool)
  | num (n : Int)
  | str (s : String)
  | arr (elems : List Json)
  | obj (fields : List (String × Json))

/-- Python values that appear in the params dicts the client builds:
strings, ints, and None (the default `partition_name`). -/
inductive PyVal where
  | pstr (s : String)
  | pint (n : Int)
  | pnone
deriving DecidableEq

/-- An HTTP response as the client observes it: the status code, and the
result of JSON-decoding the body (`none` when the body is not valid JSON,
in which case `resp.json()` raises). -/
structure HttpResponse where
  status_code : Int
  jsonBody : Option Json

/-- The request a client call hands to the HTTP library: method ("POST"
sends `params` as a form body, "GET" as a query string), url, headers,
params, timeout. -/
structure HttpRequest where
  method : String
  url : String
  headers : List (String × String)
  params : List (String × PyVal)
  timeout : Int

/-- Outcome of one network exchange: a response, or a transport exception
(timeout, DNS failure, connection refused, ...) rendered as its text. -/
inductive HttpResult where
  | success (resp : HttpResponse)
  | failure (errText : String)

/-- The external world: what the network does with each request. -/
def Net : Type := HttpRequest → HttpResult

/-- Python exceptions that can cross the functions of this module:
`MilvusException` (raised by `_throw` and by the missing-job-id check),
the transport exceptions caught by the `except` clauses, the JSON decode
error raised by `resp.json()`, `TypeError` from `in` on a non-container,
and `AttributeError` from attribute access on None. -/
inductive PyExc where
  | milvus (message : String)
  | transport (text : String)
  | jsonDecode (text : String)
  | typeError (text : String)
  | attributeError (text : String)

/-- Modelled from the spec: the repository's `MilvusException`
(`pymilvus/exceptions.py`, not among the reviewed files) carries a
human-readable message (spec section 7); `str(err)` is modelled as that
message, and likewise each other exception renders as its text. -/
def PyExc.toStr : PyExc → String
  | .milvus m => m
  | .transport t => t
  | .jsonDecode t => t
  | .typeError t => t
  | .attributeError t => t

/-- Embeds `_http_headers()`: the fixed header dict attached to every
request. The third and fourth names are exactly as the source spells
them. -/
def _http_headers : List (String × String) :=
  [("User-Agent",
    "Mozilla/5.0 (Macintosh; Intel Mac OS X 10_7_0) AppleWebKit/535.11 (KHTML, like Gecko) Chrome/17.0.963.56 Safari/535.11"),
   ("Accept", "text/html,application/xhtml+xml,application/xml;q=0.9,image/webp,*/*;q=0.8"),
   ("Accept-Encodin", "gzip,deflate,sdch"),
   ("Accept-Languag", "en-US,en;q=0.5")]

/-- Embeds `_throw(msg)`: logs (ignored here) and raises
`MilvusException(message=msg)`; it never returns normally. -/
def _throw {α : Type} (msg : String) : Except PyExc α :=
  .error (.milvus msg)

/-- Message of the f-string on the status-code branch of `_post_request`. -/
def post_status_msg (url : String) (code : Int) : String :=
  "Failed to post url: " ++ url ++ ", status code: " ++ toString code

/-- Message of the f-string on the `except` branch of `_post_request`. -/
def post_error_msg (url : String) (err : String) : String :=
  "Failed to post url: " ++ url ++ ", error: " ++ err

/-- Message of the f-string on the status-code branch of `_get_request`. -/
def get_status_msg (url : String) (code : Int) : String :=
  "Failed to get url: " ++ url ++ ", status code: " ++ toString code

/-- Message of the f-string on the `except` branch of `_get_request`. -/
def get_error_msg (url : String) (err : String) : String :=
  "Failed to get url: " ++ url ++ ", error: " ++ err

/-- The request `requests.post(url=url, headers=_http_headers(), data=params,
timeout=timeout)` issues. -/
def mkPostRequest (url : String) (params : List (String × PyVal)) (timeout : Int) : HttpRequest :=
  { method := "POST", url := url, headers := _http_headers, params := params, timeout := timeout }

/-- The request `requests.get(url=url, headers=_http_headers(), params=params,
timeout=timeout)` issues. -/
def mkGetRequest (url : String) (params : List (String × PyVal)) (timeout : Int) : HttpRequest :=
  { method := "GET", url := url, headers := _http_headers, params := params, timeout := timeout }

/-- The `try` block of `_post_request`: perform the POST (a transport
exception becomes an error), check the status code, `_throw` on a non-2xx
status, otherwise return the response. -/
def post_try_body (net : Net) (url : String) (params : List (String × PyVal))
    (timeout : Int) : Except PyExc (Option HttpResponse) :=
  match net (mkPostRequest url params timeout) with
  | .failure errText => .error (.transport errText)
  | .success resp =>
    if resp.status_code < 200 ∨ 300 ≤ resp.status_code then
      _throw (post_status_msg url resp.status_code)
    else
      .ok (some resp)

/-- Embeds `_post_request(url, params, timeout)`: run the `try` block; any
exception it raises is caught by `except Exception as err` and re-raised by
`_throw(f"Failed to post url: {url}, error: {err}")`.  Were `_throw` to
return normally, control would fall off the function end and return None
(`.ok none`); that branch is kept to model the source's implicit path. -/
def _post_request (net : Net) (url : String) (params : List (String × PyVal))
    (timeout : Int) : Except PyExc (Option HttpResponse) :=
  match post_try_body net url params timeout with
  | .ok v => .ok v
  | .error err =>
    match (_throw (post_error_msg url err.toStr) : Except PyExc Unit) with
    | .error e => .error e
    | .ok _ => .ok none

/-- The `try` block of `_get_request`, mirroring `post_try_body`. -/
def get_try_body (net : Net) (url : String) (params : List (String × PyVal))
    (timeout : Int) : Except PyExc (Option HttpResponse) :=
  match net (mkGetRequest url params timeout) with
  | .failure errText => .error (.transport errText)
  | .success resp =>
    if resp.status_code < 200 ∨ 300 ≤ resp.status_code then
      _throw (get_status_msg url resp.status_code)
    else
      .ok (some resp)

/-- Embeds `_get_request(url, params, timeout)`, mirroring `_post_request`. -/
def _get_request (net : Net) (url : String) (params : List (String × PyVal))
    (timeout : Int) : Except PyExc (Option HttpResponse) :=
  match get_try_body net url params timeout with
  | .ok v => .ok v
  | .error err =>
    match (_throw (get_error_msg url err.toStr) : Except PyExc Unit) with
    | .error e => .error e
    | .ok _ => .ok none

/-- Text of the decode error `resp.json()` raises on a body that is not
valid JSON; it is produced by the JSON library from the document alone and
never mentions the request URL. -/
def json_decode_message : String :=
  "Expecting value: line 1 column 1 (char 0)"

/-- Models `resp.json()` where `resp` is the value a helper returned:
attribute access on None raises AttributeError; a body that is not valid
JSON raises the decode error; otherwise the parsed value is returned. -/
def response_json : Option HttpResponse → Except PyExc Json
  | none => .error (.attributeError "NoneType object has no attribute json")
  | some resp =>
    match resp.jsonBody with
    | some j => .ok j
    | none => .error (.jsonDecode json_decode_message)

/-- Checks whether `pat` is a prefix of `s` (over character lists). -/
def prefixCheck : List Char → List Char → Bool
  | [], _ => true
  | _ :: _, [] => false
  | a :: as, b :: bs => a == b && prefixCheck as bs

/-- Checks whether `pat` occurs as a contiguous substring of `s`. -/
def substrCheck (pat : List Char) : List Char → Bool
  | [] => prefixCheck pat []
  | c :: rest => prefixCheck pat (c :: rest) || substrCheck pat rest

/-- String-level substring test: `pat` occurs inside `hay`. -/
def str_contains (hay pat : String) : Bool :=
  substrCheck pat.data hay.data

/-- String-level test that `s` starts with `pre`. -/
def starts_with (s pre : String) : Bool :=
  prefixCheck pre.data s.data

/-- Models Python `key in res` on a parsed JSON value: key lookup on a
dict, element equality on a list, substring test on a string, TypeError on
a non-container. -/
def py_in (key : String) : Json → Except PyExc Bool
  | .obj fields => .ok (fields.any fun kv => kv.1 == key)
  | .arr elems => .ok (elems.any fun e => match e with | .str s => s == key | _ => false)
  | .str s => .ok (str_contains s key)
  | .num _ => .error (.typeError "argument of type int is not iterable")
  | .bool _ => .error (.typeError "argument of type bool is not iterable")
  | .null => .error (.typeError "argument of type NoneType is not iterable")

/-- Looks a key up in the field list of a JSON object. -/
def obj_lookup (key : String) : List (String × Json) → Option Json
  | [] => none
  | kv :: rest => if kv.1 == key then some kv.2 else obj_lookup key rest

/-- Message of the missing-job-id check in `bulk_insert`. -/
def no_job_id_msg : String := "Illegal result from bulkinsert call: no job id"

/-- The params dict `bulk_insert` builds (a None `partition_name` stays in
the dict as None; the HTTP library omits None-valued fields from the form
body). -/
def bulk_insert_params (object_url access_key secret_key cluster_id collection_name : String)
    (partition_name : Option String) : List (String × PyVal) :=
  [("objectUrl", .pstr object_url),
   ("accessKey", .pstr access_key),
   ("secretKey", .pstr secret_key),
   ("clusterId", .pstr cluster_id),
   ("collectionName", .pstr collection_name),
   ("partitionName", match partition_name with | some s => PyVal.pstr s | none => PyVal.pnone)]

/-- Embeds `bulk_insert(url, object_url, access_key, secret_key, cluster_id,
collection_name, partition_name)`: build the params dict, POST it, parse
the response as JSON, raise `MilvusException` when `"jobID" not in res`,
otherwise return the parsed response. -/
def bulk_insert (net : Net) (url object_url access_key secret_key cluster_id collection_name : String)
    (partition_name : Option String) : Except PyExc Json :=
  match _post_request net url
      (bulk_insert_params object_url access_key secret_key cluster_id collection_name partition_name) 20 with
  | .error e => .error e
  | .ok resp =>
    match response_json resp with
    | .error e => .error e
    | .ok res =>
      match py_in "jobID" res with
      | .error e => .error e
      | .ok found => if found then .ok res else .error (.milvus no_job_id_msg)

/-- The params dict `get_job_progress` builds. -/
def get_job_progress_params (job_id cluster_id : String) : List (String × PyVal) :=
  [("jobID", .pstr job_id), ("clusterId", .pstr cluster_id)]

/-- Embeds `get_job_progress(url, job_id, cluster_id)`: build the params
dict, GET, return `resp.json()`. -/
def get_job_progress (net : Net) (url job_id cluster_id : String) : Except PyExc Json :=
  match _get_request net url (get_job_progress_params job_id cluster_id) 20 with
  | .error e => .error e
  | .ok resp => response_json resp

/-- The params dict `list_jobs` builds. -/
def list_jobs_params (cluster_id : String) (page_size current_page : Int) : List (String × PyVal) :=
  [("clusterId", .pstr cluster_id), ("pageSize", .pint page_size), ("currentPage", .pint current_page)]

/-- Embeds `list_jobs(url, cluster_id, page_size, current_page)`: build the
params dict, GET, return `resp.json()`. -/
def list_jobs (net : Net) (url cluster_id : String) (page_size current_page : Int) : Except PyExc Json :=
  match _get_request net url (list_jobs_params cluster_id page_size current_page) 20 with
  | .error e => .error e
  | .ok resp => response_json resp

/-- The one request a `bulk_insert` call sends. -/
def bulk_insert_request (url object_url access_key secret_key cluster_id collection_name : String)
    (partition_name : Option String) : HttpRequest :=
  mkPostRequest url
    (bulk_insert_params object_url access_key secret_key cluster_id collection_name partition_name) 20

/-- The one request a `get_job_progress` call sends. -/
def get_job_progress_request (url job_id cluster_id : String) : HttpRequest :=
  mkGetRequest url (get_job_progress_params job_id cluster_id) 20

/-- The one request a `list_jobs` call sends. -/
def list_jobs_request (url cluster_id : String) (page_size current_page : Int) : HttpRequest :=
  mkGetRequest url (list_jobs_params cluster_id page_size current_page) 20

/-- What a helper may hand back to its caller: never the None of the
implicit fall-through; a normally returned response always has 2xx
status. -/
def helper_ret_spec : Except PyExc (Option HttpResponse) → Prop
  | .ok none => False
  | .ok (some resp) => 200 ≤ resp.status_code ∧ resp.status_code < 300
  | .error _ => True

/-! ## General lemmas -/

theorem prefixCheck_append (as bs : List Char) : prefixCheck as (as ++ bs) = true := by
  induction as with
  | nil => rfl
  | cons a as ih => simp [prefixCheck, ih]

theorem substrCheck_of_prefixCheck {pat s : List Char} (h : prefixCheck pat s = true) :
    substrCheck pat s = true := by
  cases s with
  | nil => simpa [substrCheck] using h
  | cons c rest => simp [substrCheck, h]

theorem substrCheck_append (xs pat ys : List Char) :
    substrCheck pat (xs ++ (pat ++ ys)) = true := by
  induction xs with
  | nil => simpa using substrCheck_of_prefixCheck (prefixCheck_append pat ys)
  | cons x xs ih => simp [substrCheck, ih]

theorem str_contains_middle (a pat b : String) :
    str_contains (a ++ pat ++ b) pat = true := by
  have h : (a ++ pat ++ b).data = a.data ++ (pat.data ++ b.data) := by
    simp [String.data_append]
  unfold str_contains
  rw [h]
  exact substrCheck_append _ _ _

theorem str_contains_end (a pat : String) : str_contains (a ++ pat) pat = true := by
  have h : (a ++ pat).data = a.data ++ (pat.data ++ ([] : List Char)) := by
    simp [String.data_append]
  unfold str_contains
  rw [h]
  exact substrCheck_append _ _ _

theorem starts_with_append (pre rest : String) : starts_with (pre ++ rest) pre = true := by
  unfold starts_with
  rw [String.data_append]
  exact prefixCheck_append _ _

theorem obj_lookup_some_any {key : String} {fields : List (String × Json)} {v : Json}
    (h : obj_lookup key fields = some v) : (fields.any fun kv => kv.1 == key) = true := by
  induction fields with
  | nil => simp [obj_lookup] at h
  | cons kv rest ih =>
    by_cases hk : (kv.1 == key) = true
    · simp [hk]
    · rw [obj_lookup, if_neg hk] at h
      simp [hk, ih h]

theorem obj_lookup_none_any {key : String} {fields : List (String × Json)}
    (h : obj_lookup key fields = none) : (fields.any fun kv => kv.1 == key) = false := by
  induction fields with
  | nil => simp
  | cons kv rest ih =>
    by_cases hk : (kv.1 == key) = true
    · rw [obj_lookup, if_pos hk] at h
      simp at h
    · rw [obj_lookup, if_neg hk] at h
      simp [hk, ih h]

/-! ## Behavior of the HTTP helpers -/

theorem post_try_body_success {net : Net} {url : String} {params : List (String × PyVal)}
    {t : Int} {resp : HttpResponse}
    (hnet : net (mkPostRequest url params t) = .success resp)
    (hok : ¬(resp.status_code < 200 ∨ 300 ≤ resp.status_code)) :
    post_try_body net url params t = .ok (some resp) := by
  unfold post_try_body
  rw [hnet]
  dsimp only
  rw [if_neg hok]

theorem post_try_body_badstatus {net : Net} {url : String} {params : List (String × PyVal)}
    {t : Int} {resp : HttpResponse}
    (hnet : net (mkPostRequest url params t) = .success resp)
    (hbad : resp.status_code < 200 ∨ 300 ≤ resp.status_code) :
    post_try_body net url params t = .error (.milvus (post_status_msg url resp.status_code)) := by
  unfold post_try_body
  rw [hnet]
  dsimp only
  rw [if_pos hbad]
  rfl

theorem post_request_success {net : Net} {url : String} {params : List (String × PyVal)}
    {t : Int} {resp : HttpResponse}
    (hnet : net (mkPostRequest url params t) = .success resp)
    (hok : ¬(resp.status_code < 200 ∨ 300 ≤ resp.status_code)) :
    _post_request net url params t = .ok (some resp) := by
  unfold _post_request
  rw [post_try_body_success hnet hok]

theorem post_request_badstatus {net : Net} {url : String} {params : List (String × PyVal)}
    {t : Int} {resp : HttpResponse}
    (hnet : net (mkPostRequest url params t) = .success resp)
    (hbad : resp.status_code < 200 ∨ 300 ≤ resp.status_code) :
    _post_request net url params t =
      .error (.milvus (post_error_msg url (post_status_msg url resp.status_code))) := by
  unfold _post_request
  rw [post_try_body_badstatus hnet hbad]
  rfl

theorem post_request_transport {net : Net} {url : String} {params : List (String × PyVal)}
    {t : Int} {errText : String}
    (hnet : net (mkPostRequest url params t) = .failure errText) :
    _post_request net url params t = .error (.milvus (post_error_msg url errText)) := by
  unfold _post_request post_try_body
  rw [hnet]
  rfl

theorem get_try_body_success {net : Net} {url : String} {params : List (String × PyVal)}
    {t : Int} {resp : HttpResponse}
    (hnet : net (mkGetRequest url params t) = .success resp)
    (hok : ¬(resp.status_code < 200 ∨ 300 ≤ resp.status_code)) :
    get_try_body net url params t = .ok (some resp) := by
  unfold get_try_body
  rw [hnet]
  dsimp only
  rw [if_neg hok]

theorem get_try_body_badstatus {net : Net} {url : String} {params : List (String × PyVal)}
    {t : Int} {resp : HttpResponse}
    (hnet : net (mkGetRequest url params t) = .success resp)
    (hbad : resp.status_code < 200 ∨ 300 ≤ resp.status_code) :
    get_try_body net url params t = .error (.milvus (get_status_msg url resp.status_code)) := by
  unfold get_try_body
  rw [hnet]
  dsimp only
  rw [if_pos hbad]
  rfl

theorem get_request_success {net : Net} {url : String} {params : List (String × PyVal)}
    {t : Int} {resp : HttpResponse}
    (hnet : net (mkGetRequest url params t) = .success resp)
    (hok : ¬(resp.status_code < 200 ∨ 300 ≤ resp.status_code)) :
    _get_request net url params t = .ok (some resp) := by
  unfold _get_request
  rw [get_try_body_success hnet hok]

theorem get_request_badstatus {net : Net} {url : String} {params : List (String × PyVal)}
    {t : Int} {resp : HttpResponse}
    (hnet : net (mkGetRequest url params t) = .success resp)
    (hbad : resp.status_code < 200 ∨ 300 ≤ resp.status_code) :
    _get_request net url params t =
      .error (.milvus (get_error_msg url (get_status_msg url resp.status_code))) := by
  unfold _get_request
  rw [get_try_body_badstatus hnet hbad]
  rfl

theorem get_request_transport {net : Net} {url : String} {params : List (String × PyVal)}
    {t : Int} {errText : String}
    (hnet : net (mkGetRequest url params t) = .failure errText) :
    _get_request net url params t = .error (.milvus (get_error_msg url errText)) := by
  unfold _get_request get_try_body
  rw [hnet]
  rfl

/-! ## Content of the failure messages -/

theorem post_error_msg_starts (url err : String) :
    starts_with (post_error_msg url err) "Failed to post url: " = true := by
  unfold post_error_msg
  rw [String.append_assoc, String.append_assoc]
  exact starts_with_append _ _

theorem post_error_msg_contains_url (url err : String) :
    str_contains (post_error_msg url err) url = true := by
  unfold post_error_msg
  rw [String.append_assoc]
  exact str_contains_middle _ _ _

theorem get_error_msg_contains_url (url err : String) :
    str_contains (get_error_msg url err) url = true := by
  unfold get_error_msg
  rw [String.append_assoc]
  exact str_contains_middle _ _ _

theorem post_wrapped_contains_code (url : String) (code : Int) :
    str_contains (post_error_msg url (post_status_msg url code)) (toString code) = true := by
  unfold post_error_msg post_status_msg
  rw [← String.append_assoc]
  exact str_contains_end _ _

theorem get_wrapped_contains_code (url : String) (code : Int) :
    str_contains (get_error_msg url (get_status_msg url code)) (toString code) = true := by
  unfold get_error_msg get_status_msg
  rw [← String.append_assoc]
  exact str_contains_end _ _

theorem no_job_id_msg_ne_post (url : String) (code : Int) :
    no_job_id_msg ≠ post_error_msg url (post_status_msg url code) := by
  intro h
  have h2 : starts_with no_job_id_msg "Failed to post url: " =
      starts_with (post_error_msg url (post_status_msg url code)) "Failed to post url: " :=
    congrArg (fun s => starts_with s "Failed to post url: ") h
  rw [post_error_msg_starts] at h2
  exact absurd h2 (by decide)

/-! ## Behavior of the three operations -/

theorem bulk_insert_of_post_error {net : Net}
    {url object_url access_key secret_key cluster_id collection_name : String}
    {partition_name : Option String} {e : PyExc}
    (h : _post_request net url
      (bulk_insert_params object_url access_key secret_key cluster_id collection_name partition_name) 20
      = .error e) :
    bulk_insert net url object_url access_key secret_key cluster_id collection_name partition_name
      = .error e := by
  unfold bulk_insert
  rw [h]

theorem get_job_progress_of_get_error {net : Net} {url job_id cluster_id : String} {e : PyExc}
    (h : _get_request net url (get_job_progress_params job_id cluster_id) 20 = .error e) :
    get_job_progress net url job_id cluster_id = .error e := by
  unfold get_job_progress
  rw [h]

theorem list_jobs_of_get_error {net : Net} {url cluster_id : String}
    {page_size current_page : Int} {e : PyExc}
    (h : _get_request net url (list_jobs_params cluster_id page_size current_page) 20 = .error e) :
    list_jobs net url cluster_id page_size current_page = .error e := by
  unfold list_jobs
  rw [h]

theorem bulk_insert_2xx_obj {net : Net}
    {url object_url access_key secret_key cluster_id collection_name : String}
    {partition_name : Option String} {fields : List (String × Json)} {code : Int}
    (hnet : net (bulk_insert_request url object_url access_key secret_key cluster_id
        collection_name partition_name) = .success ⟨code, some (.obj fields)⟩)
    (hlo : 200 ≤ code) (hhi : code < 300) :
    bulk_insert net url object_url access_key secret_key cluster_id collection_name partition_name
      = if (fields.any fun kv => kv.1 == "jobID") then .ok (.obj fields)
        else .error (.milvus no_job_id_msg) := by
  unfold bulk_insert_request at hnet
  have hp := post_request_success hnet (show ¬(code < 200 ∨ 300 ≤ code) by omega)
  unfold bulk_insert
  rw [hp]
  rfl

/-! ## The claims -/

/-- C1: a `bulk_insert` (submit_import) call whose POST returns HTTP 200
with a JSON body containing a "jobID" field returns the parsed response
mapping, and the job-identifier field of the returned mapping equals the
value in the response body. -/
theorem bulk_insert_200_returns_parsed_body
    (net : Net) (url object_url access_key secret_key cluster_id collection_name : String)
    (partition_name : Option String) (fields : List (String × Json)) (v : Json)
    (hnet : net (bulk_insert_request url object_url access_key secret_key cluster_id
        collection_name partition_name) = .success ⟨200, some (.obj fields)⟩)
    (hjob : obj_lookup "jobID" fields = some v) :
    bulk_insert net url object_url access_key secret_key cluster_id collection_name partition_name
      = .ok (.obj fields)
    ∧ obj_lookup "jobID" fields = some v := by
  have h := bulk_insert_2xx_obj hnet (by omega) (by omega)
  rw [obj_lookup_some_any hjob] at h
  simp only [if_true] at h
  exact ⟨h, hjob⟩

/-- Witness for C1: a concrete 200 response whose body is the mapping
with jobID "abc123". -/
theorem bulk_insert_200_returns_parsed_body_check :
    bulk_insert (fun _ => .success ⟨200, some (.obj [("jobID", .str "abc123")])⟩)
        "http://server/submit" "obj-url" "ak" "sk" "cl" "coll" none
      = .ok (.obj [("jobID", .str "abc123")])
    ∧ obj_lookup "jobID" [("jobID", .str "abc123")] = some (.str "abc123") :=
  bulk_insert_200_returns_parsed_body
    (fun _ => .success ⟨200, some (.obj [("jobID", .str "abc123")])⟩)
    "http://server/submit" "obj-url" "ak" "sk" "cl" "coll" none
    [("jobID", .str "abc123")] (.str "abc123") rfl rfl

/-- C2: a `bulk_insert` call whose exchange succeeds with a 2xx status but
whose JSON body (a mapping) lacks the "jobID" field raises an error of the
same single kind `MilvusException` as the status-code failure, with a
message distinct from every status-code-case message; the check is
client-side, after the successful HTTP exchange. -/
theorem bulk_insert_missing_job_id_raises
    (net : Net) (url object_url access_key secret_key cluster_id collection_name : String)
    (partition_name : Option String) (fields : List (String × Json)) (code : Int)
    (hnet : net (bulk_insert_request url object_url access_key secret_key cluster_id
        collection_name partition_name) = .success ⟨code, some (.obj fields)⟩)
    (hlo : 200 ≤ code) (hhi : code < 300)
    (hjob : obj_lookup "jobID" fields = none) :
    bulk_insert net url object_url access_key secret_key cluster_id collection_name partition_name
      = .error (.milvus no_job_id_msg)
    ∧ ∀ u : String, ∀ c : Int, no_job_id_msg ≠ post_error_msg u (post_status_msg u c) := by
  have h := bulk_insert_2xx_obj hnet hlo hhi
  rw [obj_lookup_none_any hjob] at h
  simp only [Bool.false_eq_true, if_false] at h
  exact ⟨h, no_job_id_msg_ne_post⟩

/-- Witness for C2: a concrete 204 response whose mapping body has no
jobID field. -/
theorem bulk_insert_missing_job_id_raises_check :
    bulk_insert (fun _ => .success ⟨204, some (.obj [("ok", .bool true)])⟩)
        "http://server/submit2" "obj-url" "ak" "sk" "cl" "coll" none
      = .error (.milvus no_job_id_msg)
    ∧ ∀ u : String, ∀ c : Int, no_job_id_msg ≠ post_error_msg u (post_status_msg u c) :=
  bulk_insert_missing_job_id_raises
    (fun _ => .success ⟨204, some (.obj [("ok", .bool true)])⟩)
    "http://server/submit2" "obj-url" "ak" "sk" "cl" "coll" none
    [("ok", .bool true)] 204 rfl (by decide) (by decide) rfl

/-- C3: a non-2xx response to any of the three operations makes the
operation raise a `MilvusException` whose message contains the attempted
URL and the status code; the operation yields only that error, never a
response body. -/
theorem non2xx_raises_url_and_code
    (net : Net) (url object_url access_key secret_key cluster_id collection_name job_id : String)
    (partition_name : Option String) (page_size current_page : Int)
    (resp : HttpResponse)
    (hbad : resp.status_code < 200 ∨ 300 ≤ resp.status_code) :
    (net (bulk_insert_request url object_url access_key secret_key cluster_id collection_name
        partition_name) = .success resp →
      ∃ msg, bulk_insert net url object_url access_key secret_key cluster_id collection_name
          partition_name = .error (.milvus msg)
        ∧ str_contains msg url = true
        ∧ str_contains msg (toString resp.status_code) = true)
    ∧ (net (get_job_progress_request url job_id cluster_id) = .success resp →
      ∃ msg, get_job_progress net url job_id cluster_id = .error (.milvus msg)
        ∧ str_contains msg url = true
        ∧ str_contains msg (toString resp.status_code) = true)
    ∧ (net (list_jobs_request url cluster_id page_size current_page) = .success resp →
      ∃ msg, list_jobs net url cluster_id page_size current_page = .error (.milvus msg)
        ∧ str_contains msg url = true
        ∧ str_contains msg (toString resp.status_code) = true) := by
  refine ⟨fun hnet => ?_, fun hnet => ?_, fun hnet => ?_⟩
  · unfold bulk_insert_request at hnet
    exact ⟨post_error_msg url (post_status_msg url resp.status_code),
      bulk_insert_of_post_error (post_request_badstatus hnet hbad),
      post_error_msg_contains_url _ _, post_wrapped_contains_code _ _⟩
  · unfold get_job_progress_request at hnet
    exact ⟨get_error_msg url (get_status_msg url resp.status_code),
      get_job_progress_of_get_error (get_request_badstatus hnet hbad),
      get_error_msg_contains_url _ _, get_wrapped_contains_code _ _⟩
  · unfold list_jobs_request at hnet
    exact ⟨get_error_msg url (get_status_msg url resp.status_code),
      list_jobs_of_get_error (get_request_badstatus hnet hbad),
      get_error_msg_contains_url _ _, get_wrapped_contains_code _ _⟩

/-- Witness for C3: a concrete 404 response to each of the three
operations. -/
theorem non2xx_raises_url_and_code_check :
    (∃ msg, bulk_insert (fun _ => .success ⟨404, some (.obj [])⟩)
        "http://svc" "obj-url" "ak" "sk" "cl" "coll" none = .error (.milvus msg)
      ∧ str_contains msg "http://svc" = true
      ∧ str_contains msg (toString (404 : Int)) = true)
    ∧ (∃ msg, get_job_progress (fun _ => .success ⟨404, some (.obj [])⟩)
        "http://svc" "job1" "cl" = .error (.milvus msg)
      ∧ str_contains msg "http://svc" = true
      ∧ str_contains msg (toString (404 : Int)) = true)
    ∧ (∃ msg, list_jobs (fun _ => .success ⟨404, some (.obj [])⟩)
        "http://svc" "cl" 10 1 = .error (.milvus msg)
      ∧ str_contains msg "http://svc" = true
      ∧ str_contains msg (toString (404 : Int)) = true) :=
  non2xx_raises_url_and_code (fun _ => .success ⟨404, some (.obj [])⟩)
    "http://svc" "obj-url" "ak" "sk" "cl" "coll" "job1" none 10 1
    ⟨404, some (.obj [])⟩ (by decide)
  |>.imp (fun f => f rfl) (fun g => g.imp (fun f => f rfl) (fun f => f rfl))

/-- C4 counterexample: the claim says every error message embeds the target
URL, including the missing-job-id case. On a concrete 200 response whose
body lacks "jobID", the raised `MilvusException` carries the fixed message
"Illegal result from bulkinsert call: no job id", which does not contain
the target URL (and is not the claimed "missing job id in response"). -/
theorem missing_job_id_message_lacks_url :
    bulk_insert (fun _ => .success ⟨200, some (.obj [("status", .str "ok")])⟩)
        "http://target-url" "obj-url" "ak" "sk" "cl" "coll" none
      = .error (.milvus "Illegal result from bulkinsert call: no job id")
    ∧ str_contains "Illegal result from bulkinsert call: no job id" "http://target-url" = false :=
  ⟨rfl, by decide⟩

/-- C4 (amended): every error the client raises in the three failure
conditions — non-2xx status, transport exception, missing job id — is a
`MilvusException`; in the non-2xx and transport cases its message embeds
the target URL; the missing-job-id check raises the fixed, URL-independent
message "Illegal result from bulkinsert call: no job id". -/
theorem error_kind_and_url_amended
    (net : Net) (url object_url access_key secret_key cluster_id collection_name : String)
    (params : List (String × PyVal)) (timeout : Int)
    (partition_name : Option String) (fields : List (String × Json)) (code : Int) :
    (∀ resp : HttpResponse, net (mkPostRequest url params timeout) = .success resp →
      resp.status_code < 200 ∨ 300 ≤ resp.status_code →
      ∃ msg, _post_request net url params timeout = .error (.milvus msg)
        ∧ str_contains msg url = true)
    ∧ (∀ resp : HttpResponse, net (mkGetRequest url params timeout) = .success resp →
      resp.status_code < 200 ∨ 300 ≤ resp.status_code →
      ∃ msg, _get_request net url params timeout = .error (.milvus msg)
        ∧ str_contains msg url = true)
    ∧ (∀ errText : String, net (mkPostRequest url params timeout) = .failure errText →
      ∃ msg, _post_request net url params timeout = .error (.milvus msg)
        ∧ str_contains msg url = true)
    ∧ (∀ errText : String, net (mkGetRequest url params timeout) = .failure errText →
      ∃ msg, _get_request net url params timeout = .error (.milvus msg)
        ∧ str_contains msg url = true)
    ∧ (net (bulk_insert_request url object_url access_key secret_key cluster_id collection_name
          partition_name) = .success ⟨code, some (.obj fields)⟩ →
      200 ≤ code → code < 300 → obj_lookup "jobID" fields = none →
      bulk_insert net url object_url access_key secret_key cluster_id collection_name
          partition_name = .error (.milvus no_job_id_msg))
    ∧ no_job_id_msg = "Illegal result from bulkinsert call: no job id" := by
  refine ⟨?_, ?_, ?_, ?_, ?_, rfl⟩
  · intro resp hnet hbad
    exact ⟨post_error_msg url (post_status_msg url resp.status_code),
      post_request_badstatus hnet hbad, post_error_msg_contains_url _ _⟩
  · intro resp hnet hbad
    exact ⟨get_error_msg url (get_status_msg url resp.status_code),
      get_request_badstatus hnet hbad, get_error_msg_contains_url _ _⟩
  · intro errText hnet
    exact ⟨post_error_msg url errText, post_request_transport hnet,
      post_error_msg_contains_url _ _⟩
  · intro errText hnet
    exact ⟨get_error_msg url errText, get_request_transport hnet,
      get_error_msg_contains_url _ _⟩
  · intro hnet hlo hhi hjob
    have h := bulk_insert_2xx_obj hnet hlo hhi
    rw [obj_lookup_none_any hjob] at h
    simpa only [Bool.false_eq_true, if_false] using h

/-- C5: `get_job_progress` and `list_jobs` return exactly the parsed JSON
body of any 2xx response, unmodified, whatever its shape. -/
theorem get_ops_pass_through_2xx
    (net : Net) (url job_id cluster_id : String) (page_size current_page : Int)
    (code : Int) (j : Json) (hlo : 200 ≤ code) (hhi : code < 300) :
    (net (get_job_progress_request url job_id cluster_id) = .success ⟨code, some j⟩ →
      get_job_progress net url job_id cluster_id = .ok j)
    ∧ (net (list_jobs_request url cluster_id page_size current_page) = .success ⟨code, some j⟩ →
      list_jobs net url cluster_id page_size current_page = .ok j) := by
  constructor
  · intro hnet
    unfold get_job_progress_request at hnet
    have hp := get_request_success hnet (show ¬(code < 200 ∨ 300 ≤ code) by omega)
    unfold get_job_progress
    rw [hp]
    rfl
  · intro hnet
    unfold list_jobs_request at hnet
    have hp := get_request_success hnet (show ¬(code < 200 ∨ 300 ≤ code) by omega)
    unfold list_jobs
    rw [hp]
    rfl

/-- Witness for C5: a 200 response carrying an arbitrary-shaped body (an
array) is passed through by both GET operations. -/
theorem get_ops_pass_through_2xx_check :
    (get_job_progress (fun _ => .success ⟨200, some (.arr [.num 7, .str "x"])⟩)
        "http://svc/prog" "job9" "cl9" = .ok (.arr [.num 7, .str "x"]))
    ∧ (list_jobs (fun _ => .success ⟨200, some (.arr [.num 7, .str "x"])⟩)
        "http://svc/prog" "cl9" 5 2 = .ok (.arr [.num 7, .str "x"])) :=
  have h := get_ops_pass_through_2xx (fun _ => .success ⟨200, some (.arr [.num 7, .str "x"])⟩)
    "http://svc/prog" "job9" "cl9" 5 2 200 (.arr [.num 7, .str "x"]) (by decide) (by decide)
  ⟨h.1 rfl, h.2 rfl⟩

/-- C6 (code observation): the fixed header set every request carries has
the names "User-Agent", "Accept", "Accept-Encodin" and "Accept-Languag" —
the last two names are truncated, not the standard "Accept-Encoding" and
"Accept-Language" of the claim — and both request builders attach exactly
this set on every call. -/
theorem header_names_as_coded :
    _http_headers.map Prod.fst = ["User-Agent", "Accept", "Accept-Encodin", "Accept-Languag"]
    ∧ (_http_headers.map Prod.fst).contains "Accept-Encoding" = false
    ∧ (_http_headers.map Prod.fst).contains "Accept-Language" = false
    ∧ (∀ url params timeout, (mkPostRequest url params timeout).headers = _http_headers)
    ∧ (∀ url params timeout, (mkGetRequest url params timeout).headers = _http_headers) :=
  ⟨rfl, by decide, by decide, fun _ _ _ => rfl, fun _ _ _ => rfl⟩

/-- C7: each operation marshals exactly the specified parameter set —
`bulk_insert` POSTs objectUrl, accessKey, secretKey, clusterId,
collectionName, partitionName (None meaning default partition);
`get_job_progress` GETs jobID, clusterId; `list_jobs` GETs clusterId,
pageSize, currentPage — and each operation's outcome depends on the
network only through that one request. -/
theorem marshalled_param_sets :
    (∀ url object_url access_key secret_key cluster_id collection_name partition_name,
      (bulk_insert_request url object_url access_key secret_key cluster_id collection_name
        partition_name).method = "POST"
      ∧ (bulk_insert_request url object_url access_key secret_key cluster_id collection_name
          partition_name).params.map Prod.fst
        = ["objectUrl", "accessKey", "secretKey", "clusterId", "collectionName", "partitionName"])
    ∧ (∀ url job_id cluster_id,
      (get_job_progress_request url job_id cluster_id).method = "GET"
      ∧ (get_job_progress_request url job_id cluster_id).params.map Prod.fst
        = ["jobID", "clusterId"])
    ∧ (∀ url cluster_id page_size current_page,
      (list_jobs_request url cluster_id page_size current_page).method = "GET"
      ∧ (list_jobs_request url cluster_id page_size current_page).params.map Prod.fst
        = ["clusterId", "pageSize", "currentPage"])
    ∧ (∀ (net : Net) url object_url access_key secret_key cluster_id collection_name partition_name,
      bulk_insert net url object_url access_key secret_key cluster_id collection_name partition_name
        = bulk_insert (fun _ => net (bulk_insert_request url object_url access_key secret_key
            cluster_id collection_name partition_name))
          url object_url access_key secret_key cluster_id collection_name partition_name)
    ∧ (∀ (net : Net) url job_id cluster_id,
      get_job_progress net url job_id cluster_id
        = get_job_progress (fun _ => net (get_job_progress_request url job_id cluster_id))
          url job_id cluster_id)
    ∧ (∀ (net : Net) url cluster_id page_size current_page,
      list_jobs net url cluster_id page_size current_page
        = list_jobs (fun _ => net (list_jobs_request url cluster_id page_size current_page))
          url cluster_id page_size current_page) :=
  ⟨fun _ _ _ _ _ _ _ => ⟨rfl, rfl⟩,
   fun _ _ _ => ⟨rfl, rfl⟩,
   fun _ _ _ _ => ⟨rfl, rfl⟩,
   fun _ _ _ _ _ _ _ _ => rfl,
   fun _ _ _ _ => rfl,
   fun _ _ _ _ _ => rfl⟩

/-- C8: the HTTP helpers never hand None back to a caller — `_throw`
always raises, so the implicit return-None path after the exception
handler is unreachable — and a normally returned response always has a
2xx status. -/
theorem helpers_never_return_none (net : Net) (url : String)
    (params : List (String × PyVal)) (timeout : Int) :
    helper_ret_spec (_post_request net url params timeout)
    ∧ helper_ret_spec (_get_request net url params timeout) := by
  constructor
  · cases hn : net (mkPostRequest url params timeout) with
    | failure e =>
      rw [post_request_transport hn]
      trivial
    | success resp =>
      by_cases hb : resp.status_code < 200 ∨ 300 ≤ resp.status_code
      · rw [post_request_badstatus hn hb]
        trivial
      · rw [post_request_success hn hb]
        unfold helper_ret_spec
        omega
  · cases hn : net (mkGetRequest url params timeout) with
    | failure e =>
      rw [get_request_transport hn]
      trivial
    | success resp =>
      by_cases hb : resp.status_code < 200 ∨ 300 ≤ resp.status_code
      · rw [get_request_badstatus hn hb]
        trivial
      · rw [get_request_success hn hb]
        unfold helper_ret_spec
        omega

/-- C9: on a non-2xx response the exception `_throw` raises inside the
`try` block is caught by the generic `except` clause and re-raised by a
second `_throw`, so the error delivered to the caller carries the
status-code message nested inside the transport-error message — for a POST,
"Failed to post url: URL, error: Failed to post url: URL, status code: C" —
not the plain status-code message alone. -/
theorem non2xx_error_wrapped_twice
    (net : Net) (url : String) (params : List (String × PyVal)) (timeout : Int)
    (resp : HttpResponse)
    (hbad : resp.status_code < 200 ∨ 300 ≤ resp.status_code) :
    (net (mkPostRequest url params timeout) = .success resp →
      _post_request net url params timeout
        = .error (.milvus ("Failed to post url: " ++ url ++ ", error: "
            ++ ("Failed to post url: " ++ url ++ ", status code: "
              ++ toString resp.status_code))))
    ∧ (net (mkGetRequest url params timeout) = .success resp →
      _get_request net url params timeout
        = .error (.milvus ("Failed to get url: " ++ url ++ ", error: "
            ++ ("Failed to get url: " ++ url ++ ", status code: "
              ++ toString resp.status_code)))) := by
  constructor
  · intro hnet
    exact post_request_badstatus hnet hbad
  · intro hnet
    exact get_request_badstatus hnet hbad

/-- Witness for C9: a concrete 500 response yields the doubly wrapped
message. -/
theorem non2xx_error_wrapped_twice_check :
    (_post_request (fun _ => .success ⟨500, some (.obj [])⟩) "http://w" [] 20
      = .error (.milvus ("Failed to post url: " ++ "http://w" ++ ", error: "
          ++ ("Failed to post url: " ++ "http://w" ++ ", status code: "
            ++ toString (500 : Int)))))
    ∧ (_get_request (fun _ => .success ⟨500, some (.obj [])⟩) "http://w" [] 20
      = .error (.milvus ("Failed to get url: " ++ "http://w" ++ ", error: "
          ++ ("Failed to get url: " ++ "http://w" ++ ", status code: "
            ++ toString (500 : Int))))) :=
  have h := non2xx_error_wrapped_twice (fun _ => .success ⟨500, some (.obj [])⟩)
    "http://w" [] 20 ⟨500, some (.obj [])⟩ (by decide)
  ⟨h.1 rfl, h.2 rfl⟩

/-- C10: a 2xx response whose body is not valid JSON makes each of the
three operations raise the JSON decode error — a kind distinct from
`MilvusException` and whose fixed text is independent of the URL — so this
failure mode escapes the single-error-kind contract. -/
theorem invalid_json_escapes_error_kind
    (net : Net) (url object_url access_key secret_key cluster_id collection_name job_id : String)
    (partition_name : Option String) (page_size current_page : Int)
    (code : Int) (hlo : 200 ≤ code) (hhi : code < 300) :
    (net (bulk_insert_request url object_url access_key secret_key cluster_id collection_name
        partition_name) = .success ⟨code, none⟩ →
      bulk_insert net url object_url access_key secret_key cluster_id collection_name
        partition_name = .error (.jsonDecode json_decode_message))
    ∧ (net (get_job_progress_request url job_id cluster_id) = .success ⟨code, none⟩ →
      get_job_progress net url job_id cluster_id = .error (.jsonDecode json_decode_message))
    ∧ (net (list_jobs_request url cluster_id page_size current_page) = .success ⟨code, none⟩ →
      list_jobs net url cluster_id page_size current_page
        = .error (.jsonDecode json_decode_message))
    ∧ (∀ m, PyExc.jsonDecode json_decode_message ≠ PyExc.milvus m) := by
  refine ⟨fun hnet => ?_, fun hnet => ?_, fun hnet => ?_, fun m h => PyExc.noConfusion h⟩
  · unfold bulk_insert_request at hnet
    have hp := post_request_success hnet (show ¬(code < 200 ∨ 300 ≤ code) by omega)
    unfold bulk_insert
    rw [hp]
    rfl
  · unfold get_job_progress_request at hnet
    have hp := get_request_success hnet (show ¬(code < 200 ∨ 300 ≤ code) by omega)
    unfold get_job_progress
    rw [hp]
    rfl
  · unfold list_jobs_request at hnet
    have hp := get_request_success hnet (show ¬(code < 200 ∨ 300 ≤ code) by omega)
    unfold list_jobs
    rw [hp]
    rfl

/-- Witness for C10: a concrete 200 response with an unparseable body makes
all three operations raise the decode error. -/
theorem invalid_json_escapes_error_kind_check :
    (bulk_insert (fun _ => .success ⟨200, none⟩) "http://nj" "obj-url" "ak" "sk" "cl" "coll" none
      = .error (.jsonDecode json_decode_message))
    ∧ (get_job_progress (fun _ => .success ⟨200, none⟩) "http://nj" "jobx" "cl"
      = .error (.jsonDecode json_decode_message))
    ∧ (list_jobs (fun _ => .success ⟨200, none⟩) "http://nj" "cl" 3 1
      = .error (.jsonDecode json_decode_message))
    ∧ (∀ m, PyExc.jsonDecode json_decode_message ≠ PyExc.milvus m) :=
  have h := invalid_json_escapes_error_kind (fun _ => .success ⟨200, none⟩)
    "http://nj" "obj-url" "ak" "sk" "cl" "coll" "jobx" none 3 1 200 (by decide) (by decide)
  ⟨h.1 rfl, h.2.1 rfl, h.2.2.1 rfl, h.2.2.2⟩

end BulkImport
